import Mathlib

/-!
Shallow embedding of the error taxonomy of `src/borneo/exception.py` and of
the `SignatureProvider` engine exercised by `test/signature_provider.py`
(the engine implementation itself is not part of the source fragment, so its
behaviour is modelled from the spec where a claim needs it).
-/

/-- The exception classes defined in `src/borneo/exception.py`, one
constructor per `class` statement. -/
inductive ExcClass where
  | illegalArgumentException
  | illegalStateException
  | noSQLException
  | queryException
  | queryStateException
  | authenticationException
  | indexExistsException
  | indexNotFoundException
  | invalidAuthorizationException
  | requestTimeoutException
  | resourceLimitException
  | retryableException
  | tableExistsException
  | tableNotFoundException
  | tableSizeException
  | unauthorizedException
  | evolutionLimitException
  | deploymentException
  | indexLimitException
  | keySizeLimitException
  | rowSizeLimitException
  | tableLimitException
  | batchOperationNumberLimitException
  | requestSizeLimitException
  | securityInfoNotReadyException
  | systemException
  | tableBusyException
  | throttlingException
  | operationThrottlingException
  | readThrottlingException
  | writeThrottlingException
deriving DecidableEq, Repr, Fintype

/-- The direct base class of each class, when the base is itself a class of
`exception.py` (`none` when the base is the builtin `RuntimeError`).
Transcribed from the `class C(B):` headers of the source. -/
def ExcClass.base : ExcClass → Option ExcClass
  | .illegalArgumentException => none
  | .illegalStateException => none
  | .noSQLException => none
  | .queryException => none
  | .queryStateException => some .illegalStateException
  | .authenticationException => some .noSQLException
  | .indexExistsException => some .noSQLException
  | .indexNotFoundException => some .noSQLException
  | .invalidAuthorizationException => some .noSQLException
  | .requestTimeoutException => some .noSQLException
  | .resourceLimitException => some .noSQLException
  | .retryableException => some .noSQLException
  | .tableExistsException => some .noSQLException
  | .tableNotFoundException => some .noSQLException
  | .tableSizeException => some .noSQLException
  | .unauthorizedException => some .noSQLException
  | .evolutionLimitException => some .resourceLimitException
  | .deploymentException => some .resourceLimitException
  | .indexLimitException => some .resourceLimitException
  | .keySizeLimitException => some .resourceLimitException
  | .rowSizeLimitException => some .resourceLimitException
  | .tableLimitException => some .resourceLimitException
  | .batchOperationNumberLimitException => some .resourceLimitException
  | .requestSizeLimitException => some .resourceLimitException
  | .securityInfoNotReadyException => some .retryableException
  | .systemException => some .retryableException
  | .tableBusyException => some .retryableException
  | .throttlingException => some .retryableException
  | .operationThrottlingException => some .throttlingException
  | .readThrottlingException => some .throttlingException
  | .writeThrottlingException => some .throttlingException

/-- `isSubclassOf c d` is Python's `issubclass(c, d)` restricted to the
classes of `exception.py`; the hierarchy is at most four classes deep, so
three base-class steps suffice. -/
def ExcClass.isSubclassOf (c d : ExcClass) : Bool :=
  c = d ||
    (match c.base with
     | none => false
     | some p =>
       p = d ||
         (match p.base with
          | none => false
          | some q =>
            q = d ||
              (match q.base with
               | none => false
               | some r => r = d)))

/-- The Python class name of each class, as `__class__.__name__` renders it
(used by `RequestTimeoutException.__str__` for the wrapped cause). -/
def ExcClass.className : ExcClass → String
  | .illegalArgumentException => "IllegalArgumentException"
  | .illegalStateException => "IllegalStateException"
  | .noSQLException => "NoSQLException"
  | .queryException => "QueryException"
  | .queryStateException => "QueryStateException"
  | .authenticationException => "AuthenticationException"
  | .indexExistsException => "IndexExistsException"
  | .indexNotFoundException => "IndexNotFoundException"
  | .invalidAuthorizationException => "InvalidAuthorizationException"
  | .requestTimeoutException => "RequestTimeoutException"
  | .resourceLimitException => "ResourceLimitException"
  | .retryableException => "RetryableException"
  | .tableExistsException => "TableExistsException"
  | .tableNotFoundException => "TableNotFoundException"
  | .tableSizeException => "TableSizeException"
  | .unauthorizedException => "UnauthorizedException"
  | .evolutionLimitException => "EvolutionLimitException"
  | .deploymentException => "DeploymentException"
  | .indexLimitException => "IndexLimitException"
  | .keySizeLimitException => "KeySizeLimitException"
  | .rowSizeLimitException => "RowSizeLimitException"
  | .tableLimitException => "TableLimitException"
  | .batchOperationNumberLimitException => "BatchOperationNumberLimitException"
  | .requestSizeLimitException => "RequestSizeLimitException"
  | .securityInfoNotReadyException => "SecurityInfoNotReadyException"
  | .systemException => "SystemException"
  | .tableBusyException => "TableBusyException"
  | .throttlingException => "ThrottlingException"
  | .operationThrottlingException => "OperationThrottlingException"
  | .readThrottlingException => "ReadThrottlingException"
  | .writeThrottlingException => "WriteThrottlingException"

/-- Python method resolution of `ok_to_retry` on a class: the method is
defined on `RetryableException` (body `return True`) and on `NoSQLException`
(body `return False`); a class outside the `NoSQLException` hierarchy has no
such method (`none` models the `AttributeError`). Both bodies are constant
returns, so the result of the dispatch depends on the class alone. -/
def ok_to_retry (c : ExcClass) : Option Bool :=
  if c.isSubclassOf .retryableException then some true
  else if c.isSubclassOf .noSQLException then some false
  else none

/-- Location of an expression in a query, from `QueryException.Location`:
start and end, line and column (Python ints; the constructor asserts all four
are nonnegative). -/
structure Location where
  start_line : Int
  start_column : Int
  end_line : Int
  end_column : Int
deriving DecidableEq, Repr

/-- An exception instance: its class together with the instance state the
constructors of `exception.py` can store — `message` and `cause` (both
optional, from `NoSQLException.__init__` and kin), `timeout_ms` (set by
`RequestTimeoutException.__init__`, default `0`), and `location` (set by
`QueryException.__init__`, default `None`). -/
inductive ExcInst where
  | mk (cls : ExcClass) (message : Option String) (cause : Option ExcInst)
      (timeout_ms : Int) (location : Option Location)

def ExcInst.cls : ExcInst → ExcClass
  | .mk c _ _ _ _ => c

def ExcInst.message : ExcInst → Option String
  | .mk _ m _ _ _ => m

def ExcInst.cause : ExcInst → Option ExcInst
  | .mk _ _ cs _ _ => cs

def ExcInst.timeout_ms : ExcInst → Int
  | .mk _ _ _ t _ => t

def ExcInst.location : ExcInst → Option Location
  | .mk _ _ _ _ l => l

/-- `ok_to_retry()` invoked on an instance: Python dispatches on the
instance's class and both method bodies ignore `self`, so the call reduces to
the class-level dispatch `ok_to_retry`. -/
def ok_to_retry_inst (e : ExcInst) : Option Bool :=
  ok_to_retry e.cls

/-- Python `str(e)` for an exception instance, following the `__str__`
methods of `exception.py`. `QueryException.__str__` builds
`'Error:' + (location part) + ' ' + message`;
`RequestTimeoutException.__str__` starts from the message, appends
`'  Timeout: <n> ms.'` when `timeout_ms != 0`, and appends
`'\nCaused by: <class name>: <str(cause)>'` when a cause is present; every
other class returns its stored message. `none` models the `TypeError`
Python raises when the stored message is `None` (string concatenation with
`None`, or `__str__` returning a non-string). -/
def exc_str : ExcInst → Option String
  | .mk c msg cause t loc =>
    match c with
    | .queryException =>
      msg.map fun m =>
        "Error:" ++
          (match loc with
           | none => ""
           | some l =>
             " at (" ++ toString l.start_line ++ ", " ++
               toString l.start_column ++ ")") ++
          " " ++ m
    | .requestTimeoutException =>
      match msg with
      | none => none
      | some m =>
        let base := if t ≠ 0 then m ++ "  Timeout: " ++ toString t ++ " ms." else m
        match cause with
        | none => some base
        | some cE =>
          (exc_str cE).map fun cs =>
            base ++ "\nCaused by: " ++ cE.cls.className ++ ": " ++ cs
    | _ => msg

/-- What a call can do besides returning: raise one of the driver's
exceptions, or hit a Python `TypeError` while rendering a `None` message. -/
inductive RaisedExc where
  | illegalArgumentException (message : String)
  | typeError
deriving DecidableEq, Repr

/-- `QueryException.get_illegal_argument`: despite its name it returns
nothing — its body is `raise IllegalArgumentException(str(self))`. The
argument `str(self)` is evaluated first, so a `None` message surfaces as a
`TypeError` instead. -/
def get_illegal_argument (q : ExcInst) : Except RaisedExc Unit :=
  match exc_str q with
  | some s => .error (.illegalArgumentException s)
  | none => .error .typeError

/-- A Python value passed as a constructor keyword argument: an int, or
something non-numeric such as the strings the tests pass
(`'IllegalDurationSeconds'`, `'IllegalRefreshAhead'`). -/
inductive PyVal where
  | int (i : Int)
  | str (s : String)
deriving DecidableEq, Repr

/-- Modelled from the spec: the `borneo.iam.SignatureProvider` implementation
is not part of the source fragment (only `test/signature_provider.py` is), so
this follows the spec's construction contract — `duration_seconds` must be an
int with `0 < duration ≤ 300` and `refresh_ahead` an int with
`1 ≤ refresh_ahead < duration`; any other pair makes construction raise
`IllegalArgument`. `true` means the pair passes validation and construction
succeeds (before any background work starts). -/
def ctor_durations_ok (duration_seconds refresh_ahead : PyVal) : Bool :=
  match duration_seconds, refresh_ahead with
  | .int d, .int r => 0 < d && d ≤ 300 && 1 ≤ r && r < d
  | _, _ => false

/-- The cached signature slot of the engine: value and expiry instant
(instants are modelled as integers). -/
structure CachedSignature where
  value : String
  expires_at : Int
deriving DecidableEq, Repr

/-- Modelled from the spec: the observable state of a `SignatureProvider`
engine — whether `set_service_url` has been called, the single cached
signature slot, how many times the Signing Primitive has been invoked so
far, and whether the engine is closed. -/
structure SigEngine where
  service_url : Option String
  cache : Option CachedSignature
  nsign : Nat
  closed : Bool

/-- What a `SignatureProvider` operation can raise. -/
inductive EngineError where
  | illegalArgument
  | illegalState
deriving DecidableEq, Repr

/-- Modelled from the spec: one invocation of the Signing Primitive.
`sign` is the primitive treated as a black box (its `n`-th invocation
returns the string `sign n`); the new signature expires `duration` seconds
after it is computed, and is atomically stored in the cache slot. -/
def compute_signature (sign : Nat → String) (duration : Int) (e : SigEngine)
    (now : Int) : String × SigEngine :=
  let v := sign e.nsign
  (v, { e with cache := some ⟨v, now + duration⟩, nsign := e.nsign + 1 })

/-- Modelled from the spec: `get_authorization_string`. A closed engine
raises `IllegalState`; an engine whose service URL has not been set raises
`IllegalArgument` (regardless of cache state); an unrecognized request type
raises `IllegalArgument`; otherwise the cached value is returned while
`now < expires_at`, and a missing or expired value is recomputed inline. -/
def get_authorization_string (sign : Nat → String) (duration : Int)
    (e : SigEngine) (now : Int) (recognized_request : Bool) :
    Except EngineError (String × SigEngine) :=
  if e.closed then .error .illegalState
  else
    match e.service_url with
    | none => .error .illegalArgument
    | some _ =>
      if !recognized_request then .error .illegalArgument
      else
        match e.cache with
        | some c =>
          if now < c.expires_at then .ok (c.value, e)
          else .ok (compute_signature sign duration e now)
        | none => .ok (compute_signature sign duration e now)

/-- Modelled from the spec: the background refresh tick, which fires at
`expires_at - refresh_ahead`, invokes the Signing Primitive and atomically
swaps the new `(value, expires_at)` pair into the cache. -/
def background_refresh (sign : Nat → String) (duration : Int) (e : SigEngine)
    (now : Int) : SigEngine :=
  (compute_signature sign duration e now).2

/-- Modelled from the spec: region resolution precedence at construction,
highest to lowest — (a) an explicit `region` constructor argument, (b) a
region present on an externally-supplied signer handle, (c) a region
recorded in the resolved config-file profile, (d) none. Regions are
modelled as strings. -/
def resolve_region (explicit_region signer_region profile_region :
    Option String) : Option String :=
  match explicit_region with
  | some r => some r
  | none =>
    match signer_region with
    | some r => some r
    | none => profile_region

/-- The exception kinds the spec marks retryable: `SecurityInfoNotReady`,
`System`, `TableBusy`, and the throttling family (`Throttling` itself plus
`OperationThrottling`, `ReadThrottling`, `WriteThrottling`). -/
def retryable_kinds : List ExcClass :=
  [.securityInfoNotReadyException, .systemException, .tableBusyException,
   .throttlingException, .operationThrottlingException,
   .readThrottlingException, .writeThrottlingException]

/-- Membership in the error taxonomy as the claims use the word: the classes
of the `NoSQLException` hierarchy (the ones that expose `ok_to_retry`; the
classes outside it have no such method at all), excluding the documented
abstract bases `NoSQLException`, `ResourceLimitException` and
`RetryableException`. `ThrottlingException` is kept: the claims name it as a
taxonomy member in its own right. -/
def taxonomy_member (c : ExcClass) : Bool :=
  (ok_to_retry c).isSome &&
    !(c = .noSQLException || c = .resourceLimitException ||
      c = .retryableException)

/-- Helper: `get_illegal_argument` never reaches a `return`; its body is a
single `raise` statement, so every run ends in the error branch. -/
theorem get_illegal_argument_ne_ok (q : ExcInst) (u : Unit) :
    get_illegal_argument q ≠ .ok u := by
  unfold get_illegal_argument
  cases exc_str q
  · exact fun h => Except.noConfusion h
  · exact fun h => Except.noConfusion h

/-- C1: for every taxonomy member, `ok_to_retry()` returns true exactly when
the member is `SecurityInfoNotReadyException`, `SystemException`,
`TableBusyException`, or a `ThrottlingException` (including the operation,
read and write variants), and returns false for every other taxonomy member;
and on instances the result is a function of the exception's class alone,
never of its message, cause or other instance state. -/
theorem ok_to_retry_exactly_retryable_kinds :
    (∀ c : ExcClass, taxonomy_member c = true →
      ((c ∈ retryable_kinds → ok_to_retry c = some true) ∧
       (c ∉ retryable_kinds → ok_to_retry c = some false))) ∧
    (∀ e₁ e₂ : ExcInst, e₁.cls = e₂.cls →
      ok_to_retry_inst e₁ = ok_to_retry_inst e₂) := by
  constructor
  · decide
  · intro e₁ e₂ h
    simp only [ok_to_retry_inst, h]

/-- Witness for C1: `SecurityInfoNotReadyException` is a taxonomy member and
retryable; `TableNotFoundException` is a taxonomy member and not. -/
theorem ok_to_retry_exactly_retryable_kinds_witness :
    taxonomy_member .securityInfoNotReadyException = true ∧
    ok_to_retry .securityInfoNotReadyException = some true ∧
    taxonomy_member .tableNotFoundException = true ∧
    ok_to_retry .tableNotFoundException = some false :=
  ⟨by decide,
    (ok_to_retry_exactly_retryable_kinds.1 _ (by decide)).1 (by decide),
    by decide,
    (ok_to_retry_exactly_retryable_kinds.1 _ (by decide)).2 (by decide)⟩

/-- C2 counterexample: an `AuthenticationException` whose wrapped cause is a
retryable `SecurityInfoNotReadyException` still answers `ok_to_retry() =
False` — `AuthenticationException` extends `NoSQLException`, not
`RetryableException`, and never consults its cause. -/
theorem authentication_ignores_cause_counterexample :
    (∃ cE, ExcInst.cause (ExcInst.mk .authenticationException
        (some "refresh failed")
        (some (.mk .securityInfoNotReadyException (some "not ready") none
          0 none)) 0 none) = some cE ∧ ok_to_retry_inst cE = some true) ∧
    ok_to_retry_inst (ExcInst.mk .authenticationException
        (some "refresh failed")
        (some (.mk .securityInfoNotReadyException (some "not ready") none
          0 none)) 0 none) = some false :=
  ⟨⟨_, rfl, by decide⟩, by decide⟩

/-- C2 (amended): `ok_to_retry()` on an `AuthenticationException` always
returns false, whatever the wrapped cause is; the cause's own retryability is
never consulted. -/
theorem authentication_ok_to_retry_always_false (e : ExcInst)
    (h : e.cls = .authenticationException) : ok_to_retry_inst e = some false := by
  simp only [ok_to_retry_inst, h]
  decide

/-- Witness for the amended C2: a concrete `AuthenticationException` wrapping
a retryable cause is itself not retryable. -/
theorem authentication_ok_to_retry_always_false_witness :
    ok_to_retry_inst (ExcInst.mk .authenticationException (some "expired")
      (some (.mk .securityInfoNotReadyException (some "not ready") none
        0 none)) 0 none) = some false :=
  authentication_ok_to_retry_always_false _ rfl

/-- C3: a `QueryException` crossing the API boundary through
`get_illegal_argument` always surfaces as an `IllegalArgumentException`,
never as the `QueryException` itself, and when a source location is attached
its start line and start column are folded into the resulting message text
(`'Error: at (line, column) message'`). -/
theorem query_exception_crosses_as_illegal_argument (q : ExcInst) (m : String)
    (hc : q.cls = .queryException) (hm : q.message = some m) :
    (∀ u : Unit, get_illegal_argument q ≠ .ok u) ∧
    (q.location = none →
      get_illegal_argument q =
        .error (.illegalArgumentException ("Error: " ++ m))) ∧
    (∀ l : Location, q.location = some l →
      get_illegal_argument q = .error (.illegalArgumentException
        ("Error:" ++ (" at (" ++ toString l.start_line ++ ", " ++
          toString l.start_column ++ ")") ++ " " ++ m))) := by
  obtain ⟨c, msg, cause, t, loc⟩ := q
  simp only [ExcInst.cls] at hc
  simp only [ExcInst.message] at hm
  subst hc
  subst hm
  refine ⟨get_illegal_argument_ne_ok _, ?_, ?_⟩
  · intro hl
    simp only [ExcInst.location] at hl
    subst hl
    rfl
  · intro l hl
    simp only [ExcInst.location] at hl
    subst hl
    rfl

/-- Witness for C3: a concrete `QueryException` with a location starting at
line 3, column 7 becomes an `IllegalArgumentException` whose message carries
the pair. -/
theorem query_exception_crosses_as_illegal_argument_witness :
    get_illegal_argument
        (.mk .queryException (some "bad query") none 0 (some ⟨3, 7, 3, 9⟩)) =
      .error (.illegalArgumentException "Error: at (3, 7) bad query") :=
  (query_exception_crosses_as_illegal_argument
    (.mk .queryException (some "bad query") none 0 (some ⟨3, 7, 3, 9⟩))
    "bad query" rfl rfl).2.2 ⟨3, 7, 3, 9⟩ rfl

/-- C4 counterexample: a `RequestTimeoutException` constructed with the
default `timeout_ms = 0` renders as its bare message — no timeout value is
appended — so the rendering does not append the timeout for every instance. -/
theorem request_timeout_str_zero_counterexample :
    exc_str (.mk .requestTimeoutException (some "m") none 0 none) = some "m" ∧
    exc_str (.mk .requestTimeoutException (some "m") none 0 none) ≠
      some ("m" ++ "  Timeout: " ++ toString (0 : Int) ++ " ms.") :=
  ⟨rfl, by decide⟩

/-- C4 (amended): whenever `timeout_ms` is nonzero, the string rendering of a
`RequestTimeoutException` appends `'  Timeout: <n> ms.'` to the message, and
whenever a wrapped cause is present it additionally appends the cause's class
name and the cause's own rendering (its message). -/
theorem request_timeout_str_appends (m : String) (t : Int)
    (loc : Option Location) (ht : t ≠ 0) :
    exc_str (.mk .requestTimeoutException (some m) none t loc) =
      some (m ++ "  Timeout: " ++ toString t ++ " ms.") ∧
    (∀ (cE : ExcInst) (cs : String), exc_str cE = some cs →
      exc_str (.mk .requestTimeoutException (some m) (some cE) t loc) =
        some (m ++ "  Timeout: " ++ toString t ++ " ms." ++ "\nCaused by: " ++
          cE.cls.className ++ ": " ++ cs)) := by
  constructor
  · simp [exc_str, ht]
  · intro cE cs hcs
    simp [exc_str, ht, hcs]

/-- Witness for the amended C4: a 5000 ms timeout wrapping a
`SystemException` cause renders with the timeout, the cause's class name and
the cause's message. -/
theorem request_timeout_str_appends_witness :
    (5000 : Int) ≠ 0 ∧
    exc_str (.mk .requestTimeoutException (some "req failed")
        (some (.mk .systemException (some "sys down") none 0 none)) 5000
        none) =
      some ("req failed" ++ "  Timeout: " ++ toString (5000 : Int) ++ " ms." ++
        "\nCaused by: " ++ "SystemException" ++ ": " ++ "sys down") :=
  ⟨by decide, (request_timeout_str_appends "req failed" 5000 none
    (by decide)).2 (.mk .systemException (some "sys down") none 0 none)
    "sys down" rfl⟩

/-- C5: construction of a `SignatureProvider` succeeds exactly for the pairs
`(duration_seconds, refresh_ahead)` of ints with
`0 < refresh_ahead < duration ≤ 300`; every other pair — non-numeric values,
zero, negatives, `duration > 300` — fails validation and raises
`IllegalArgument`. -/
theorem signature_provider_duration_validation (d r : PyVal) :
    ctor_durations_ok d r = true ↔
      ∃ i j : Int, d = .int i ∧ r = .int j ∧ 0 < j ∧ j < i ∧ i ≤ 300 := by
  cases d <;> cases r <;> simp [ctor_durations_ok] <;> omega

/-- Witness for C5: the tests' valid pair `duration_seconds = 5`,
`refresh_ahead = 1` passes validation. -/
theorem signature_provider_duration_validation_witness :
    ctor_durations_ok (.int 5) (.int 1) = true :=
  (signature_provider_duration_validation (.int 5) (.int 1)).mpr
    ⟨5, 1, rfl, rfl, by decide, by decide, by decide⟩

/-- C6: calling `get_authorization_string` before `set_service_url` raises
`IllegalArgument`, whatever the cache slot holds. -/
theorem get_authorization_before_service_url_raises (sign : Nat → String)
    (duration : Int) (e : SigEngine) (now : Int) (recognized : Bool)
    (hurl : e.service_url = none) (hcl : e.closed = false) :
    get_authorization_string sign duration e now recognized =
      .error .illegalArgument := by
  simp [get_authorization_string, hurl, hcl]

/-- Witness for C6: an engine that even holds a valid cached signature still
raises `IllegalArgument` when its service URL was never set. -/
theorem get_authorization_before_service_url_raises_witness :
    get_authorization_string (fun _ => "s") 300
      ⟨none, some ⟨"cached", 1000⟩, 2, false⟩ 0 true = .error .illegalArgument :=
  get_authorization_before_service_url_raises _ _ _ _ _ rfl rfl

/-- C7: with cache parameters `0 < refresh_ahead < duration`, a first call at
`t0` computes and caches a signature expiring at `t0 + duration`; a second
call inside the same duration window (no intervening refresh) returns the
identical string and leaves the engine unchanged; after the background
refresh fires at `t0 + duration - refresh_ahead`, a call past that instant
returns a different signature string (the primitive's next output) that is
not expired at the moment of return. -/
theorem signature_cache_hit_then_refresh (sign : Nat → String)
    (d r t0 t1 t2 : Int) (url : String)
    (hr : 0 < r) (hrd : r < d) (hsign : sign 0 ≠ sign 1)
    (h01 : t0 ≤ t1) (h1d : t1 < t0 + d)
    (h2lo : t0 + d - r ≤ t2) (h2hi : t2 < t0 + d - r + d) :
    get_authorization_string sign d ⟨some url, none, 0, false⟩ t0 true =
      .ok (sign 0, ⟨some url, some ⟨sign 0, t0 + d⟩, 1, false⟩) ∧
    get_authorization_string sign d ⟨some url, some ⟨sign 0, t0 + d⟩, 1, false⟩
        t1 true =
      .ok (sign 0, ⟨some url, some ⟨sign 0, t0 + d⟩, 1, false⟩) ∧
    background_refresh sign d ⟨some url, some ⟨sign 0, t0 + d⟩, 1, false⟩
        (t0 + d - r) =
      ⟨some url, some ⟨sign 1, t0 + d - r + d⟩, 2, false⟩ ∧
    get_authorization_string sign d
        ⟨some url, some ⟨sign 1, t0 + d - r + d⟩, 2, false⟩ t2 true =
      .ok (sign 1, ⟨some url, some ⟨sign 1, t0 + d - r + d⟩, 2, false⟩) ∧
    sign 1 ≠ sign 0 ∧ t2 < t0 + d - r + d := by
  refine ⟨rfl, ?_, rfl, ?_, Ne.symm hsign, h2hi⟩
  · simp [get_authorization_string, h1d]
  · simp [get_authorization_string, h2hi]

/-- Witness for C7: the tests' scenario `duration = 5`, `refresh_ahead = 1`,
calls at `t = 0`, `t = 2` (same string) and `t = 6` (new, unexpired
string after the refresh at `t = 4`). -/
theorem signature_cache_hit_then_refresh_witness :
    get_authorization_string (fun n => if n == 0 then "sig0" else "sig1") 5
        ⟨some "auth", none, 0, false⟩ 0 true =
      .ok ("sig0", ⟨some "auth", some ⟨"sig0", 5⟩, 1, false⟩) ∧
    get_authorization_string (fun n => if n == 0 then "sig0" else "sig1") 5
        ⟨some "auth", some ⟨"sig0", 5⟩, 1, false⟩ 2 true =
      .ok ("sig0", ⟨some "auth", some ⟨"sig0", 5⟩, 1, false⟩) ∧
    background_refresh (fun n => if n == 0 then "sig0" else "sig1") 5
        ⟨some "auth", some ⟨"sig0", 5⟩, 1, false⟩ 4 =
      ⟨some "auth", some ⟨"sig1", 9⟩, 2, false⟩ ∧
    get_authorization_string (fun n => if n == 0 then "sig0" else "sig1") 5
        ⟨some "auth", some ⟨"sig1", 9⟩, 2, false⟩ 6 true =
      .ok ("sig1", ⟨some "auth", some ⟨"sig1", 9⟩, 2, false⟩) ∧
    ("sig1" : String) ≠ "sig0" ∧ (6 : Int) < 9 :=
  signature_cache_hit_then_refresh (fun n => if n == 0 then "sig0" else "sig1")
    5 1 0 2 6 "auth" (by decide) (by decide) (by decide) (by decide)
    (by decide) (by decide) (by decide)

/-- C9: region resolution precedence — an explicit `region` constructor
argument wins over any region carried by the signer handle or the config-file
profile; with no explicit argument the signer handle's region is used, then
the profile's, and with no source at all `get_region()` returns none. -/
theorem region_resolution_precedence :
    (∀ (r : String) (s p : Option String),
      resolve_region (some r) s p = some r) ∧
    (∀ (s : String) (p : Option String),
      resolve_region none (some s) p = some s) ∧
    (∀ p : String, resolve_region none none (some p) = some p) ∧
    resolve_region none none none = none :=
  ⟨fun _ _ _ => rfl, fun _ _ => rfl, fun _ => rfl, rfl⟩

/-- C10: `get_illegal_argument` never returns a value to its caller — despite
being named and documented as a getter, its body is a `raise` — and the
`IllegalArgumentException` it raises carries exactly the string rendering of
the `QueryException`: the message prefixed with `'Error:'` and, when a
location is attached, the `(start_line, start_column)` pair. -/
theorem get_illegal_argument_raises_not_returns (q : ExcInst)
    (hc : q.cls = .queryException) :
    (∀ u : Unit, get_illegal_argument q ≠ .ok u) ∧
    (∀ s : String, exc_str q = some s →
      get_illegal_argument q = .error (.illegalArgumentException s)) ∧
    (∀ m : String, q.message = some m →
      exc_str q = some ("Error:" ++
        (match q.location with
         | none => ""
         | some l => " at (" ++ toString l.start_line ++ ", " ++
             toString l.start_column ++ ")") ++ " " ++ m)) := by
  refine ⟨get_illegal_argument_ne_ok q, ?_, ?_⟩
  · intro s hs
    unfold get_illegal_argument
    rw [hs]
  · intro m hm
    obtain ⟨c, msg, cause, t, loc⟩ := q
    simp only [ExcInst.cls] at hc
    simp only [ExcInst.message] at hm
    subst hc
    subst hm
    cases loc <;> rfl

/-- Witness for C10: on a concrete `QueryException` the call does not return
and raises an `IllegalArgumentException` holding the exception's own string
rendering. -/
theorem get_illegal_argument_raises_not_returns_witness :
    get_illegal_argument (.mk .queryException (some "oops") none 0 none) ≠
      .ok () ∧
    get_illegal_argument (.mk .queryException (some "oops") none 0 none) =
      .error (.illegalArgumentException "Error: oops") :=
  ⟨(get_illegal_argument_raises_not_returns
      (.mk .queryException (some "oops") none 0 none) rfl).1 (),
    (get_illegal_argument_raises_not_returns
      (.mk .queryException (some "oops") none 0 none) rfl).2.1 _ rfl⟩
